import Mathlib

/-!
# AntigravityQuotaWatcher — verification of the spec against the source

Shallow embedding of the code under `src/unnamed/` (a VS Code extension that
polls AI-model quota endpoints).  Every definition below is translated from a
named source function; the source file and line range are given in each doc
comment.  JavaScript numeric operators that matter (32-bit `|`, `<<`, `>>`,
`&` used by the protobuf varint reader, `Buffer.slice` clamping) are modelled
explicitly.
-/

namespace AQW

/-! ## JavaScript 32-bit integer semantics

JS bitwise operators coerce their operands to 32-bit two's-complement
integers and return a signed 32-bit result; shift counts are taken mod 32.
These helpers express that on `Int`/`Nat`. -/

/-- The unsigned-32-bit image of an integer (`ToUint32`). -/
def u32 (a : Int) : Nat := (a % 4294967296).toNat

/-- Reinterpret a 32-bit unsigned value as signed (two's complement). -/
def s32 (n : Nat) : Int :=
  if n % 4294967296 < 2147483648 then ((n % 4294967296 : Nat) : Int)
  else ((n % 4294967296 : Nat) : Int) - 4294967296

/-- JS `ToInt32` of an integer. -/
def jsToInt32 (a : Int) : Int := s32 (u32 a)

/-- JS `a | b` on integer-valued numbers. -/
def jsOr (a b : Int) : Int := s32 ((u32 a) ||| (u32 b))

/-- JS `a & b` on integer-valued numbers. -/
def jsAnd (a b : Int) : Int := s32 ((u32 a) &&& (u32 b))

/-- JS `a << k` on integer-valued numbers (shift count mod 32). -/
def jsShl (a : Int) (k : Nat) : Int := s32 (((u32 a) <<< (k % 32)) % 4294967296)

/-- JS `a >> k` (sign-propagating right shift = floor division by `2^k`
on the 32-bit signed value; shift count mod 32). -/
def jsShrA (a : Int) (k : Nat) : Int := Int.fdiv (jsToInt32 a) (2 ^ (k % 32))

/-! ## LocalTokenBridge — protobuf scanner
Source: `src/unnamed/part_004` (`antigravityTokenExtractor.ts`). -/

/-- `buffer[pos]` on a Node `Buffer`: the byte when `0 ≤ pos < length`,
otherwise `undefined`.  In `readVarint` an `undefined` byte behaves exactly
like the byte `0` (`undefined & 0x7f` is `0` and `undefined & 0x80` is `0`,
which terminates the loop), so out-of-range reads are modelled as `0`. -/
def byteAt (buffer : List Nat) (pos : Int) : Nat :=
  if 0 ≤ pos then buffer.getD pos.toNat 0 else 0

/-- Loop body of `readVarint` (part_004 lines 156-172).  The JS loop runs
`while (pos < buffer.length)`, incrementing `pos` once per iteration, so it
performs at most `buffer.length - pos` iterations; `steps` is that bound
(when `steps` hits `0`, `pos ≥ buffer.length` and the JS guard would have
stopped the loop too, so the fuel is never short).  Accumulation uses the
JS 32-bit `|` and `<<` semantics (`result |= (byte & 0x7f) << shift`), which
is where values ≥ 2^31 wrap to negative numbers. -/
def readVarintGo (buffer : List Nat) : Nat → Int → Int → Nat → Int × Int
  | 0, pos, result, _ => (result, pos)
  | steps + 1, pos, result, shift =>
    if pos < (buffer.length : Int) then
      let byte := byteAt buffer pos
      let result' := jsOr result (jsShl ((byte &&& 0x7f : Nat) : Int) shift)
      if byte &&& 0x80 = 0 then (result', pos + 1)
      else readVarintGo buffer steps (pos + 1) result' (shift + 7)
    else (result, pos)

/-- `readVarint(buffer, pos)` (part_004 lines 156-172): returns
`{ value, newPos }`. -/
def readVarint (buffer : List Nat) (pos : Int) : Int × Int :=
  readVarintGo buffer ((buffer.length : Int) - pos).toNat pos 0 0

/-- Resolve one index argument of Node's `Buffer.slice` (alias of
`TypedArray.subarray`): negative indices count from the end, and the result
is clamped into `[0, length]`. -/
def sliceIndex (len : Nat) (i : Int) : Nat :=
  if i < 0 then ((len : Int) + i).toNat else min i.toNat len

/-- `buffer.slice(start, end)` on a Node `Buffer`: clamped, never throws,
empty when `end ≤ start`. -/
def bufSlice (l : List Nat) (start stop : Int) : List Nat :=
  (l.take (sliceIndex l.length stop)).drop (sliceIndex l.length start)

/-- Outcome of one iteration of the `while` loop in `findProtobufField`. -/
inductive ScanStep where
  | done (r : Option (List Nat))
  | next (pos : Int)
deriving DecidableEq, Repr

/-- One iteration of the scan loop of `findProtobufField(buffer, fieldNumber)`
(part_004 lines 112-151), at read position `pos`:
read the tag varint; break (return `null`) when the tag varint ends at or past
the end of the buffer or on an unknown wire type; for wire type 2 read the
length varint and either return the slice (field match) or skip `length`
bytes; wire type 0 skips a varint; wire types 1 and 5 skip 8 and 4 bytes. -/
def scanStep (buffer : List Nat) (fieldNumber : Int) (pos : Int) : ScanStep :=
  if pos < (buffer.length : Int) then
    let t := readVarint buffer pos
    if (buffer.length : Int) ≤ t.2 then .done none
    else
      let wireType := jsAnd t.1 7
      let field := jsShrA t.1 3
      if wireType = 2 then
        let l := readVarint buffer t.2
        if field = fieldNumber then .done (some (bufSlice buffer l.2 (l.2 + l.1)))
        else .next (l.2 + l.1)
      else if wireType = 0 then .next (readVarint buffer t.2).2
      else if wireType = 1 then .next (t.2 + 8)
      else if wireType = 5 then .next (t.2 + 4)
      else .done none
  else .done none

/-- `findProtobufField` as iteration of `scanStep`, with explicit fuel:
`none` means the loop had not finished within `fuel` iterations (the JS
function has no fuel and simply keeps running), `some r` is the function's
return value `r` (`null` = `none`). -/
def findFieldFuel (buffer : List Nat) (fieldNumber : Int) :
    Nat → Int → Option (Option (List Nat))
  | 0, _ => none
  | fuel + 1, pos =>
    match scanStep buffer fieldNumber pos with
    | .done r => some r
    | .next p => findFieldFuel buffer fieldNumber fuel p

/-- `Buffer.toString('utf-8')` restricted to the byte range the claims use:
for buffers of ASCII bytes (< 128) UTF-8 decoding is the identity on code
points, which is what this computes. -/
def bufToAsciiStr (bs : List Nat) : String := String.mk (bs.map Char.ofNat)

/-- `parseProtobufForRefreshToken(buffer)` (part_004 lines 88-107): find outer
field 6, inside it find field 3, decode as a string; `null` (modelled `none`
in the inner `Option`) when either lookup fails.  The outer `Option` is fuel
exhaustion of the embedded loops.  The surrounding `try/catch` never fires:
no operation on this path throws (`Buffer.slice` clamps instead). -/
def parseProtobufForRefreshToken (fuel : Nat) (buffer : List Nat) :
    Option (Option String) :=
  match findFieldFuel buffer 6 fuel 0 with
  | none => none
  | some none => some none
  | some (some oauthData) =>
    match findFieldFuel oauthData 3 fuel 0 with
    | none => none
    | some none => some none
    | some (some tokenBytes) => some (some (bufToAsciiStr tokenBytes))

/-! ## Error objects and classifiers
Source: `src/unnamed/part_001` (`quotaService.ts`). -/

/-- A JS error as observed by `QuotaService`'s classifiers: its `message`,
its optional Node `code` property, and whether it is a `GoogleApiError`
whose `needsReauth()` returns true (the `GoogleApiError` class itself lives
in the api-client module, which is not among the sources; the classifiers
only use this one boolean of it, carried here as a field). -/
structure ErrObj where
  message : String
  code : Option String
  googleNeedsReauth : Bool
deriving DecidableEq, Repr

/-- ASCII lower-casing, what `String.prototype.toLowerCase` does on the
ASCII-only messages involved here. -/
def asciiLower (s : String) : String := String.mk (s.data.map Char.toLower)

/-- `needle` is a prefix of `hay` (char lists). -/
def charsStartWith : List Char → List Char → Bool
  | _, [] => true
  | [], _ :: _ => false
  | a :: hay, b :: nd => a = b && charsStartWith hay nd

/-- `hay.includes(needle)` on char lists. -/
def charsHave (needle : List Char) : List Char → Bool
  | [] => charsStartWith [] needle
  | c :: rest => charsStartWith (c :: rest) needle || charsHave needle rest

/-- JS `s.includes(sub)`. -/
def jsIncludes (s sub : String) : Bool := charsHave sub.data s.data

/-- `QuotaService.isNetworkOrTimeoutError` (part_001 lines 525-539). -/
def isNetworkOrTimeoutError (e : ErrObj) : Bool :=
  let m := asciiLower e.message
  jsIncludes m "network" || jsIncludes m "timeout" || jsIncludes m "econnrefused" ||
  jsIncludes m "enotfound" || jsIncludes m "econnreset" || jsIncludes m "socket hang up" ||
  e.code = some "ECONNREFUSED" || e.code = some "ENOTFOUND" ||
  e.code = some "ECONNRESET" || e.code = some "ETIMEDOUT"

/-- `QuotaService.isAuthError` (part_001 lines 544-550). -/
def isAuthError (e : ErrObj) : Bool :=
  e.googleNeedsReauth ||
  (let m := asciiLower e.message
   jsIncludes m "not authenticated" || jsIncludes m "unauthorized" || jsIncludes m "invalid_grant")

/-- The `isExpired` flag computed in the auth-error branch of
`doFetchQuota` (part_001 lines 468-469): the lower-cased message contains
"expired" or "invalid_grant". -/
def isExpiredSignal (e : ErrObj) : Bool :=
  let m := asciiLower e.message
  jsIncludes m "expired" || jsIncludes m "invalid_grant"

/-! ## Formatter
Source: `QuotaService.formatTimeUntilReset`, part_001 lines 779-797. -/

/-- `formatTimeUntilReset(ms)`.  `ms` is an integer number of milliseconds
(`resetTime.getTime() - Date.now()`, both integral).  In the positive branch
`Math.floor` of the successive quotient chain equals `Nat` floor division. -/
def formatTimeUntilReset (ms : Int) : String :=
  if ms ≤ 0 then "Expired"
  else
    let seconds := ms.toNat / 1000
    let minutes := seconds / 60
    let hours := minutes / 60
    let days := hours / 24
    if days > 0 then toString days ++ "d" ++ toString (hours % 24) ++ "h from now"
    else if hours > 0 then toString hours ++ "h " ++ toString (minutes % 60) ++ "m from now"
    else if minutes > 0 then toString minutes ++ "m " ++ toString (seconds % 60) ++ "s from now"
    else toString seconds ++ "s from now"

/-! ## TokenVault
Source: `src/unnamed/part_006` (`tokenStorage.ts`). -/

/-- `TokenSource`: `'manual' | 'imported'`. -/
inductive TokenSource where
  | manual
  | imported
deriving DecidableEq, Repr

/-- `TokenData` (part_006 lines 19-26).  `expiresAt` is an epoch-ms
timestamp; `source` is `undefined` for credentials written by old versions. -/
structure TokenData where
  accessToken : String
  refreshToken : String
  expiresAt : Int
  tokenType : String
  scope : String
  source : Option TokenSource
deriving DecidableEq, Repr

/-- The default `bufferMs` of `isTokenExpired`: `5 * 60 * 1000`. -/
def DEFAULT_EXPIRY_BUFFER_MS : Int := 5 * 60 * 1000

/-- `TokenStorage.isTokenExpired(bufferMs)` (part_006 lines 115-121), with
the stored credential (`getToken()` result) and the clock passed in
explicitly: `true` when nothing is stored, else `Date.now() + bufferMs >=
token.expiresAt`. -/
def isTokenExpired (stored : Option TokenData) (now bufferMs : Int) : Bool :=
  match stored with
  | none => true
  | some token => now + bufferMs ≥ token.expiresAt

/-! ## AuthCoordinator guards
Source: `src/unnamed/part_003` (`googleAuthService.ts`). -/

/-- `AuthState` (part_003 lines 24-31). -/
inductive AuthState where
  | NOT_AUTHENTICATED
  | AUTHENTICATING
  | AUTHENTICATED
  | TOKEN_EXPIRED
  | REFRESHING
  | ERROR
deriving DecidableEq, Repr

/-- What the entry of a login operation does before any network/browser
work: whether the call returns `false` immediately, the state it moves to
when it proceeds, and how many OAuth callback listeners it opens. -/
structure LoginEntry where
  rejected : Bool
  stateAfter : AuthState
  listenersOpened : Nat
deriving DecidableEq, Repr

/-- Entry of `GoogleAuthService.login` (part_003 lines 153-177): it returns
`false` at once when the current state is `AUTHENTICATING` (and only then);
otherwise it sets the state to `AUTHENTICATING` and constructs a
`CallbackServer`. -/
def loginEntry (s : AuthState) : LoginEntry :=
  if s = .AUTHENTICATING then ⟨true, s, 0⟩
  else ⟨false, .AUTHENTICATING, 1⟩

/-- Entry of `GoogleAuthService.loginWithRefreshToken` (part_003 lines
273-282): it returns `false` at once when the state is `AUTHENTICATING` or
`REFRESHING`; otherwise it sets the state to `REFRESHING` (no callback
listener is involved on this path). -/
def loginWithRefreshTokenEntry (s : AuthState) : LoginEntry :=
  if s = .AUTHENTICATING ∨ s = .REFRESHING then ⟨true, s, 0⟩
  else ⟨false, .REFRESHING, 0⟩

/-! ## QuotaFetcher request entry — CSRF guard
Source: `makeRequest`, part_001 lines 91-166. -/

/-- JS truthiness of the `csrfToken: string | undefined` argument:
`undefined` and the empty string are falsy. -/
def csrfTokenTruthy : Option String → Bool
  | none => false
  | some t => !(t = "")

/-- The error thrown by `makeRequest` when the CSRF token is absent
(part_001 line 108). -/
def missingCsrfError : ErrObj := ⟨"Missing CSRF token", none, false⟩

/-- How far `makeRequest` gets before touching the network. -/
inductive RequestEntry where
  /-- `throw new Error('Missing CSRF token')` — raised while building the
  headers, before `doRequest` is ever invoked, so before any network I/O. -/
  | rejectedNoCsrf (e : ErrObj)
  /-- The request proceeds to `doRequest` (actual network I/O, abstracted). -/
  | dispatched
deriving DecidableEq, Repr

/-- Entry of `makeRequest` (part_001 lines 105-109): the CSRF header is
mandatory; a falsy `csrfToken` throws before any request is made. -/
def makeRequestEntry (csrf : Option String) : RequestEntry :=
  if csrfTokenTruthy csrf then .dispatched else .rejectedNoCsrf missingCsrfError

/-! ## PollingEngine
Source: `QuotaService`, part_001 lines 168-816.

The service's mutable fields, the repeating interval timer and the one-shot
retry timeouts are made explicit state; the registered callbacks are modelled
as an effect log (all callbacks are assumed registered — the source only
guards against an unregistered callback by skipping the call).  Each event
(a poll tick, a retry timeout firing, or an API entry point) runs to
completion atomically: the single-threaded event loop interleaves only at
`await` points, and the claims' schedules place those interleavings between
whole fetches, which is what this step semantics expresses.  The outcome of
the upstream request of one fetch (success, or the error thrown) is a
parameter of the event, as is the `GoogleAuthService` state consulted by the
cloud path. -/

/-- `QuotaApiMethod` (part_001 lines 77-81). -/
inductive QuotaApiMethod where
  | GET_USER_STATUS
  | GOOGLE_API
deriving DecidableEq, Repr

/-- `MAX_RETRY_COUNT` (part_001 line 173). -/
def MAX_RETRY_COUNT : Nat := 3

/-- `RETRY_DELAY_MS` (part_001 line 174). -/
def RETRY_DELAY_MS : Nat := 5000

/-- The mutable state of one `QuotaService`, plus the runtime timers it has
created.  `intervalArmed` is `pollingInterval !== undefined`; `activeTimers`
counts live repeating timers in the runtime (`setInterval` creates one,
`clearInterval` destroys the stored one), so a duplicate-timer leak would
show up as `activeTimers = 2`.  `pendingRetries` are the delays of scheduled
one-shot retry `setTimeout`s that have not fired yet. -/
structure EngineState where
  apiMethod : QuotaApiMethod
  intervalArmed : Bool
  activeTimers : Nat
  isFirstAttempt : Bool
  consecutiveErrors : Nat
  retryCount : Nat
  isRetrying : Bool
  isPollingTransition : Bool
  pendingRetries : List Nat
deriving DecidableEq, Repr

/-- The state of a freshly constructed `QuotaService` (part_001 lines
186-202): local method, no timers, everything zero / `isFirstAttempt`. -/
def freshEngine : EngineState :=
  ⟨.GET_USER_STATUS, false, 0, true, 0, 0, false, false, []⟩

/-- Log of the callback invocations and timer registrations one event
performed, in order within each field.  `fetchAttempts` counts executions of
the body of `doFetchQuota` (one upstream fetch attempt each). -/
structure CallLog where
  statusCalls : List (String × Option Nat)
  authStatusCalls : List (Bool × Bool)
  staleCalls : List Bool
  errorCallbackCount : Nat
  updateCount : Nat
  retriesScheduled : List Nat
  fetchAttempts : Nat
deriving DecidableEq, Repr

/-- The empty log. -/
def emptyLog : CallLog := ⟨[], [], [], 0, 0, [], 0⟩

/-- Concatenation of two logs (effects of one event followed by another). -/
def CallLog.merge (a b : CallLog) : CallLog :=
  ⟨a.statusCalls ++ b.statusCalls, a.authStatusCalls ++ b.authStatusCalls,
   a.staleCalls ++ b.staleCalls, a.errorCallbackCount + b.errorCallbackCount,
   a.updateCount + b.updateCount, a.retriesScheduled ++ b.retriesScheduled,
   a.fetchAttempts + b.fetchAttempts⟩

/-- `QuotaService.stopPolling` (part_001 lines 295-301): `clearInterval` on
the stored handle when one exists. -/
def stopPolling (s : EngineState) : EngineState :=
  if s.intervalArmed then
    { s with intervalArmed := false, activeTimers := s.activeTimers - 1 }
  else s

/-- `this.pollingInterval = setInterval(...)`: a new repeating timer is
created and its handle stored (overwriting, not clearing, any previous
handle). -/
def armInterval (s : EngineState) : EngineState :=
  { s with intervalArmed := true, activeTimers := s.activeTimers + 1 }

/-- Result of the one upstream request a fetch performs: it either produces
a snapshot or throws an error. -/
inductive FetchOutcome where
  | ok
  | err (e : ErrObj)
deriving DecidableEq, Repr

/-- The `catch` block of `doFetchQuota` (part_001 lines 457-519), entered
with the thrown error `e` and the log accumulated by the `try` part:
increment `consecutiveErrors`; for the cloud method an auth-classified error
stops polling and surfaces needs-login without scheduling a retry, and a
network/timeout-classified error marks data stale and continues; otherwise,
below the budget of `MAX_RETRY_COUNT`, schedule one `setTimeout` retry after
`RETRY_DELAY_MS` and set `isRetrying`; at the budget, stop polling and
surface the terminal error. -/
def catchFetchError (s : EngineState) (e : ErrObj) (log : CallLog) :
    EngineState × CallLog :=
  let s1 := { s with consecutiveErrors := s.consecutiveErrors + 1 }
  if s1.apiMethod = .GOOGLE_API ∧ isAuthError e = true then
    (stopPolling { s1 with isRetrying := false, retryCount := 0, isFirstAttempt := false },
     log.merge { emptyLog with authStatusCalls := [(true, isExpiredSignal e)] })
  else if s1.apiMethod = .GOOGLE_API ∧ isNetworkOrTimeoutError e = true then
    ({ s1 with retryCount := 0, isFirstAttempt := false },
     log.merge { emptyLog with staleCalls := [true] })
  else if s1.retryCount < MAX_RETRY_COUNT then
    ({ s1 with retryCount := s1.retryCount + 1, isRetrying := true,
               pendingRetries := s1.pendingRetries ++ [RETRY_DELAY_MS] },
     log.merge { emptyLog with statusCalls := [("retrying", some (s1.retryCount + 1))],
                               retriesScheduled := [RETRY_DELAY_MS] })
  else
    (stopPolling s1, log.merge { emptyLog with errorCallbackCount := 1 })

/-- `QuotaService.doFetchQuota` (part_001 lines 356-520), with the consulted
`GoogleAuthService` state and the upstream request outcome as parameters.
The cloud path first runs `handleGoogleApiQuota`'s auth pre-checks (part_001
lines 598-630), whose `null` returns bypass the error/retry handling
entirely; its inner `catch` (lines 692-702) fires `authStatusCallback(true,
true)` for a needs-reauth `GoogleApiError` before rethrowing, and its
success path fires `authStatusCallback(false, false)` (lines 663-666).  A
successful fetch resets both counters, clears `isFirstAttempt` and, on the
cloud path only, clears the stale flag. -/
def doFetchQuota (s : EngineState) (auth : AuthState) (outcome : FetchOutcome) :
    EngineState × CallLog :=
  let base : CallLog :=
    { emptyLog with fetchAttempts := 1,
                    statusCalls := if s.isFirstAttempt then [("fetching", none)] else [] }
  match s.apiMethod with
  | .GOOGLE_API =>
    match auth with
    | .NOT_AUTHENTICATED =>
      ({ s with isFirstAttempt := false },
       base.merge { emptyLog with authStatusCalls := [(true, false)] })
    | .TOKEN_EXPIRED =>
      ({ s with isFirstAttempt := false },
       base.merge { emptyLog with authStatusCalls := [(true, true)] })
    | .AUTHENTICATING => (s, base)
    | .REFRESHING => (s, base)
    | .AUTHENTICATED | .ERROR =>
      match outcome with
      | .ok =>
        ({ s with consecutiveErrors := 0, retryCount := 0, isFirstAttempt := false },
         base.merge { emptyLog with authStatusCalls := [(false, false)],
                                    staleCalls := [false], updateCount := 1 })
      | .err e =>
        let tryLog :=
          if e.googleNeedsReauth then
            base.merge { emptyLog with authStatusCalls := [(true, true)] }
          else base
        catchFetchError s e tryLog
  | .GET_USER_STATUS =>
    match outcome with
    | .ok =>
      ({ s with consecutiveErrors := 0, retryCount := 0, isFirstAttempt := false },
       base.merge { emptyLog with updateCount := 1 })
    | .err e => catchFetchError s e base

/-- `QuotaService.fetchQuota` (part_001 lines 342-350): skip the whole run
when a delayed retry is pending. -/
def fetchQuota (s : EngineState) (auth : AuthState) (outcome : FetchOutcome) :
    EngineState × CallLog :=
  if s.isRetrying then (s, emptyLog) else doFetchQuota s auth outcome

/-- `QuotaService.quickRefresh` (part_001 lines 336-340): one immediate
fetch, bypassing the `isRetrying` check. -/
def quickRefresh (s : EngineState) (auth : AuthState) (outcome : FetchOutcome) :
    EngineState × CallLog :=
  doFetchQuota s auth outcome

/-- The part of `QuotaService.startPolling` (part_001 lines 259-286) that
runs before the `await this.fetchQuota()` suspension: the cloud-method auth
pre-check (which stops polling, resets the counters and signals needs-login
instead of starting), then the transition-lock check, then — when the lock
was free — taking the lock and stopping any existing timer.  The returned
flag says whether the call proceeded to the fetch. -/
def startPollingEnter (s : EngineState) (auth : AuthState) :
    EngineState × CallLog × Bool :=
  if s.apiMethod = .GOOGLE_API ∧ (auth = .NOT_AUTHENTICATED ∨ auth = .TOKEN_EXPIRED) then
    let s1 := stopPolling s
    ({ s1 with consecutiveErrors := 0, retryCount := 0, isRetrying := false },
     { emptyLog with authStatusCalls := [(true, if auth = .TOKEN_EXPIRED then true else false)] },
     false)
  else if s.isPollingTransition then (s, emptyLog, false)
  else (stopPolling { s with isPollingTransition := true }, emptyLog, true)

/-- The rest of `startPolling` (part_001 lines 286-292), resumed after the
awaited initial fetch: arm the repeating interval timer, then release the
transition lock (the `finally`). -/
def startPollingFinish (s : EngineState) (auth : AuthState) (outcome : FetchOutcome) :
    EngineState × CallLog :=
  let r := fetchQuota s auth outcome
  ({ armInterval r.1 with isPollingTransition := false }, r.2)

/-- `startPolling` run without interference between its two halves. -/
def startPolling (s : EngineState) (auth : AuthState) (outcome : FetchOutcome) :
    EngineState × CallLog :=
  match startPollingEnter s auth with
  | (s1, log1, true) =>
    let r := startPollingFinish s1 auth outcome
    (r.1, log1.merge r.2)
  | (s1, log1, false) => (s1, log1)

/-- `QuotaService.retryFromError` (part_001 lines 307-330): reset every
counter and flag, stop polling, run one fetch, and re-arm the repeating
timer only when that fetch succeeded (`consecutiveErrors === 0`). -/
def retryFromError (s : EngineState) (auth : AuthState) (outcome : FetchOutcome) :
    EngineState × CallLog :=
  let s0 := { s with consecutiveErrors := 0, retryCount := 0,
                     isRetrying := false, isFirstAttempt := true }
  let s1 := stopPolling s0
  let r := fetchQuota s1 auth outcome
  if r.1.consecutiveErrors = 0 then (armInterval r.1, r.2) else r

/-- The timer-driven events of the engine, each carrying the outcome its
fetch (if any) would observe. -/
inductive PollEvent where
  /-- The repeating `setInterval` callback: fires only while a repeating
  timer is armed, and runs `fetchQuota`. -/
  | tick (outcome : FetchOutcome)
  /-- A scheduled retry `setTimeout` callback (part_001 lines 505-508):
  fires only when one is pending; clears `isRetrying`, then runs
  `fetchQuota`. -/
  | retryFire (outcome : FetchOutcome)
deriving DecidableEq, Repr

/-- One timer event. -/
def stepEvent (auth : AuthState) (s : EngineState) (ev : PollEvent) :
    EngineState × CallLog :=
  match ev with
  | .tick o => if s.intervalArmed then fetchQuota s auth o else (s, emptyLog)
  | .retryFire o =>
    match s.pendingRetries with
    | [] => (s, emptyLog)
    | _ :: rest => fetchQuota { s with pendingRetries := rest, isRetrying := false } auth o

/-- Run a sequence of timer events, concatenating their logs. -/
def runEvents (auth : AuthState) : EngineState → List PollEvent → EngineState × CallLog
  | s, [] => (s, emptyLog)
  | s, ev :: evs =>
    let r1 := stepEvent auth s ev
    let r2 := runEvents auth r1.1 evs
    (r2.1, r1.2.merge r2.2)

/-! ## Concrete scenario data used by the theorems -/

/-- The standard protobuf envelope `field6 { field3 = token }` for a short
token: outer tag `6<<3|2 = 0x32`, outer length `token.length + 2`, inner tag
`3<<3|2 = 0x1a`, inner length, token bytes. -/
def tokenEnvelope (token : List Nat) : List Nat :=
  0x32 :: (token.length + 2) :: 0x1a :: token.length :: token

/-- The byte values of the ASCII string `sample-refresh-token`. -/
def sampleTokenBytes : List Nat := "sample-refresh-token".data.map Char.toNat

/-- A truncated buffer: outer field 6 declares length 10 but only 3 payload
bytes follow; the inner field 3 declares length 5 but only the byte `a`
follows. -/
def truncatedSample : List Nat := [0x32, 0x0A, 0x1A, 0x05, 0x61]

/-- A buffer with a field-1 record only (no field 6). -/
def noField6Sample : List Nat := [0x08, 0x05]

/-- A corrupt buffer on which the scan loops forever: tag `0x0A` (field 1,
wire type 2) followed by the 5-byte varint `FA FF FF FF 0F`, which the
32-bit accumulation of `readVarint` decodes to `-6`, so `pos += length`
moves the read position from 6 back to 0. -/
def loopBuffer : List Nat := [0x0A, 0xFA, 0xFF, 0xFF, 0xFF, 0x0F]

/-- A benign buffer for exercising the scanner's skip step: field 1 (wire
type 2, length 0) followed by a trailing byte. -/
def skipProbeBuffer : List Nat := [0x0A, 0x00, 0xFF]

/-- A representative local-RPC failure (an HTTP-status error thrown by
`makeRequest`). -/
def localBoom : ErrObj := ⟨"HTTP error: 500, detail: internal error", none, false⟩

/-- A cloud network failure (connection refused). -/
def netTimeoutSample : ErrObj := ⟨"connect ECONNREFUSED 127.0.0.1:443", some "ECONNREFUSED", false⟩

/-- A cloud auth failure carrying the `invalid_grant` signal. -/
def authFailSample : ErrObj := ⟨"Token error: invalid_grant - Bad Request", none, false⟩

/-- A cloud auth failure of the never-authenticated kind. -/
def notAuthSample : ErrObj := ⟨"Not authenticated", none, false⟩

/-- The timer events after a failing `startPolling` in the C1 scenario:
interval ticks interleaved with the three retry timeouts, all fetches
failing, plus two extra ticks after exhaustion. -/
def threeFailSchedule : List PollEvent :=
  [.tick (.err localBoom), .retryFire (.err localBoom),
   .tick (.err localBoom), .retryFire (.err localBoom),
   .tick (.err localBoom), .retryFire (.err localBoom),
   .tick (.err localBoom), .tick (.err localBoom)]

/-- `startPolling` on a fresh local-method service whose initial fetch
fails. -/
def localFailStart : EngineState × CallLog :=
  startPolling freshEngine .AUTHENTICATED (.err localBoom)

/-- The subsequent timer events of the C1 scenario, every fetch failing. -/
def localFailRun : EngineState × CallLog :=
  runEvents .AUTHENTICATED localFailStart.1 threeFailSchedule

/-- A cloud-mode engine state mid-run: timer armed, two retries already
used, no errors yet counted, first attempt still pending. -/
def staleProbeState : EngineState := ⟨.GOOGLE_API, true, 1, true, 0, 2, false, false, []⟩

/-! ## Helper lemmas -/

theorem u32_ofNat {n : Nat} (h : n < 4294967296) : u32 (n : Int) = n := by
  simp [u32, Int.emod_emod_of_dvd]
  omega

theorem s32_small {n : Nat} (h : n < 2147483648) : s32 n = n := by
  have h2 : n % 4294967296 = n := Nat.mod_eq_of_lt (by omega)
  simp [s32, h2, h]

theorem byte_and_7f {b : Nat} (h : b < 128) : b &&& 127 = b := by
  have := Nat.and_pow_two_sub_one_eq_mod b 7
  simpa [Nat.mod_eq_of_lt h] using this

theorem byte_and_80 {b : Nat} (h : b < 128) : b &&& 128 = 0 := by
  have h1 : b.testBit 7 = false := Nat.testBit_lt_two_pow h
  have h2 := Nat.and_two_pow b 7
  simp [h1] at h2
  simpa using h2

theorem jsShl_byte_zero {b : Nat} (h : b < 128) : jsShl (b : Int) 0 = b := by
  have h32 : b < 4294967296 := by omega
  simp [jsShl, u32_ofNat h32, Nat.mod_eq_of_lt h32, s32_small (by omega : b < 2147483648)]

theorem jsOr_zero_byte {b : Nat} (h : b < 128) : jsOr 0 (b : Int) = b := by
  have h32 : b < 4294967296 := by omega
  have hz : u32 0 = 0 := by simp [u32]
  simp [jsOr, hz, u32_ofNat h32, Nat.zero_or, s32_small (by omega : b < 2147483648)]

/-- `readVarint` on a position holding a byte without the continuation bit:
one byte is consumed and its value returned. -/
theorem readVarint_single {buffer : List Nat} {pos : Int} {b : Nat}
    (_h0 : 0 ≤ pos) (h1 : pos < (buffer.length : Int))
    (hb : byteAt buffer pos = b) (hs : b < 128) :
    readVarint buffer pos = ((b : Int), pos + 1) := by
  unfold readVarint
  obtain ⟨k, hk⟩ : ∃ k, ((buffer.length : Int) - pos).toNat = k + 1 :=
    ⟨((buffer.length : Int) - pos).toNat - 1, by omega⟩
  rw [hk]
  simp only [readVarintGo]
  rw [if_pos h1, hb]
  rw [if_pos (byte_and_80 hs)]
  rw [byte_and_7f hs, jsShl_byte_zero hs, jsOr_zero_byte hs]

/-- The varint reader never moves the position backwards. -/
theorem readVarintGo_snd_le (buffer : List Nat) :
    ∀ (fuel : Nat) (pos result : Int) (shift : Nat),
      pos ≤ (readVarintGo buffer fuel pos result shift).2 := by
  intro fuel
  induction fuel with
  | zero => intro pos result shift; simp [readVarintGo]
  | succ k ih =>
    intro pos result shift
    simp only [readVarintGo]
    split
    · split
      · omega
      · exact le_trans (by omega : pos ≤ pos + 1) (ih (pos + 1) _ _)
    · omega

theorem readVarint_snd_le (buffer : List Nat) (pos : Int) :
    pos ≤ (readVarint buffer pos).2 := by
  unfold readVarint
  exact readVarintGo_snd_le buffer _ pos 0 0

/-- While the position is in bounds, the varint reader consumes at least one
byte. -/
theorem readVarint_snd_lt {buffer : List Nat} {pos : Int}
    (h : pos < (buffer.length : Int)) : pos < (readVarint buffer pos).2 := by
  unfold readVarint
  obtain ⟨k, hk⟩ : ∃ k, ((buffer.length : Int) - pos).toNat = k + 1 :=
    ⟨((buffer.length : Int) - pos).toNat - 1, by omega⟩
  rw [hk]
  simp only [readVarintGo]
  rw [if_pos h]
  split
  · omega
  · exact lt_of_lt_of_le (by omega : pos < pos + 1) (readVarintGo_snd_le buffer k (pos + 1) _ _)

/-- Slicing from index 2 to the end of a two-byte header plus payload
returns the payload. -/
theorem bufSlice_header2 (x y : Nat) (rest : List Nat) :
    bufSlice (x :: y :: rest) 2 (2 + (rest.length : Int)) = rest := by
  unfold bufSlice sliceIndex
  have h1 : ¬ ((2 : Int) < 0) := by omega
  have h2 : ¬ ((2 + (rest.length : Int)) < 0) := by omega
  rw [if_neg h1, if_neg h2]
  have h3 : (2 : Int).toNat = 2 := rfl
  have h4 : (2 + (rest.length : Int)).toNat = 2 + rest.length := by omega
  rw [h3, h4]
  simp [List.length_cons]
  have h5 : (x :: y :: rest).length = rest.length + 1 + 1 := by simp
  have h6 : (2 + rest.length) ⊓ (rest.length + 1 + 1) = rest.length + 1 + 1 := by omega
  rw [h6, ← h5, List.take_length]
  rfl

/-- One scan iteration that hits a single-byte wire-type-2 tag whose field
number matches: it returns the declared slice. -/
theorem scanStep_wire2_hit {buffer : List Nat} {f pos : Int} {b1 b2 : Nat}
    (h0 : 0 ≤ pos) (h1 : pos + 1 < (buffer.length : Int))
    (hb1 : byteAt buffer pos = b1) (hs1 : b1 < 128)
    (hb2 : byteAt buffer (pos + 1) = b2) (hs2 : b2 < 128)
    (hw : jsAnd (b1 : Int) 7 = 2) (hf : jsShrA (b1 : Int) 3 = f) :
    scanStep buffer f pos =
      .done (some (bufSlice buffer (pos + 1 + 1) (pos + 1 + 1 + (b2 : Int)))) := by
  unfold scanStep
  rw [if_pos (by omega : pos < (buffer.length : Int))]
  rw [readVarint_single h0 (by omega) hb1 hs1]
  rw [if_neg (by simpa using (by omega : ¬ ((buffer.length : Int) ≤ pos + 1)))]
  rw [readVarint_single (by omega : (0 : Int) ≤ pos + 1) h1 hb2 hs2]
  simp [hw, hf]

theorem byteAt_cons_zero (a : Nat) (l : List Nat) : byteAt (a :: l) 0 = a := rfl

theorem byteAt_cons_one (a b : Nat) (l : List Nat) : byteAt (a :: b :: l) 1 = b := rfl

/-- Scanning the outer layer of a well-formed short token envelope finds
field 6 and returns the embedded message. -/
theorem findField_outer_envelope (token : List Nat) (h : token.length < 126) :
    findFieldFuel (tokenEnvelope token) 6 2 0 =
      some (some (0x1a :: token.length :: token)) := by
  have hstep : scanStep (tokenEnvelope token) 6 0 =
      .done (some (bufSlice (tokenEnvelope token) (0 + 1 + 1)
        (0 + 1 + 1 + ((token.length + 2 : Nat) : Int)))) := by
    refine scanStep_wire2_hit (by omega) ?_ (byteAt_cons_zero _ _) (by omega)
      (byteAt_cons_one _ _ _) (by omega) (by decide) (by decide)
    simp [tokenEnvelope]
    omega
  have hslice : bufSlice (tokenEnvelope token) (0 + 1 + 1)
      (0 + 1 + 1 + ((token.length + 2 : Nat) : Int)) =
      0x1a :: token.length :: token := by
    have h2 : ((0 : Int) + 1 + 1 + ((token.length + 2 : Nat) : Int)) =
        2 + (((0x1a :: token.length :: token).length : Nat) : Int) := by
      simp [List.length_cons]
      ring
    rw [h2, show ((0 : Int) + 1 + 1) = 2 by norm_num]
    exact bufSlice_header2 0x32 (token.length + 2) (0x1a :: token.length :: token)
  show findFieldFuel (tokenEnvelope token) 6 (1 + 1) 0 = _
  simp only [findFieldFuel, hstep, hslice]

/-- Scanning the embedded message finds field 3 and returns the token
bytes. -/
theorem findField_inner_envelope (token : List Nat) (h : token.length < 126) :
    findFieldFuel (0x1a :: token.length :: token) 3 2 0 = some (some token) := by
  have hstep : scanStep (0x1a :: token.length :: token) 3 0 =
      .done (some (bufSlice (0x1a :: token.length :: token) (0 + 1 + 1)
        (0 + 1 + 1 + ((token.length : Nat) : Int)))) := by
    refine scanStep_wire2_hit (by omega) ?_ (byteAt_cons_zero _ _) (by omega)
      (byteAt_cons_one _ _ _) (by omega) (by decide) (by decide)
    simp only [List.length_cons]
    push_cast
    omega
  have hslice : bufSlice (0x1a :: token.length :: token) (0 + 1 + 1)
      (0 + 1 + 1 + ((token.length : Nat) : Int)) = token := by
    have h2 : ((0 : Int) + 1 + 1 + ((token.length : Nat) : Int)) =
        2 + ((token.length : Nat) : Int) := by ring
    rw [h2, show ((0 : Int) + 1 + 1) = 2 by norm_num]
    exact bufSlice_header2 0x1a token.length token
  show findFieldFuel (0x1a :: token.length :: token) 3 (1 + 1) 0 = _
  simp only [findFieldFuel, hstep, hslice]

/-! ## Engine lemmas -/

@[simp] theorem merge_emptyLog_left (l : CallLog) : emptyLog.merge l = l := by
  cases l
  simp [CallLog.merge, emptyLog]

@[simp] theorem merge_emptyLog_right (l : CallLog) : l.merge emptyLog = l := by
  cases l
  simp [CallLog.merge, emptyLog]

/-- While a delayed retry is pending, a `fetchQuota` run is skipped
entirely. -/
theorem fetchQuota_suppressed (s : EngineState) (auth : AuthState) (o : FetchOutcome)
    (h : s.isRetrying = true) : fetchQuota s auth o = (s, emptyLog) := by
  simp [fetchQuota, h]

/-- With no repeating timer armed and no pending retry timeout, no timer
event does anything. -/
theorem stepEvent_quiescent (auth : AuthState) (s : EngineState) (ev : PollEvent)
    (h1 : s.intervalArmed = false) (h2 : s.pendingRetries = []) :
    stepEvent auth s ev = (s, emptyLog) := by
  cases ev <;> simp [stepEvent, h1, h2]

/-- A quiescent engine stays quiescent under any sequence of timer
events. -/
theorem runEvents_quiescent (auth : AuthState) (s : EngineState) (evs : List PollEvent)
    (h1 : s.intervalArmed = false) (h2 : s.pendingRetries = []) :
    runEvents auth s evs = (s, emptyLog) := by
  induction evs with
  | nil => simp [runEvents]
  | cons ev evs ih => simp [runEvents, stepEvent_quiescent auth s ev h1 h2, ih]

/-- A fetch never arms the repeating timer, and with no timer armed it
leaves the timer bookkeeping alone. -/
theorem doFetchQuota_unarmed (s : EngineState) (auth : AuthState) (o : FetchOutcome)
    (h : s.intervalArmed = false) :
    (doFetchQuota s auth o).1.intervalArmed = false ∧
    (doFetchQuota s auth o).1.activeTimers = s.activeTimers ∧
    (doFetchQuota s auth o).1.apiMethod = s.apiMethod := by
  cases hm : s.apiMethod <;> cases auth <;> cases o <;>
    simp [doFetchQuota, catchFetchError, stopPolling, h, hm] <;>
    split_ifs <;> simp_all [stopPolling]

/-- `fetchQuota` version of `doFetchQuota_unarmed`. -/
theorem fetchQuota_unarmed (s : EngineState) (auth : AuthState) (o : FetchOutcome)
    (h : s.intervalArmed = false) :
    (fetchQuota s auth o).1.intervalArmed = false ∧
    (fetchQuota s auth o).1.activeTimers = s.activeTimers ∧
    (fetchQuota s auth o).1.apiMethod = s.apiMethod := by
  unfold fetchQuota
  split
  · exact ⟨h, rfl, rfl⟩
  · exact doFetchQuota_unarmed s auth o h

/-! ## Claim theorems -/

/-- C4 (counterexample): the claim says every truncated or corrupt buffer
yields absent (`null`).  But `Buffer.slice` clamps out-of-range lengths, so
on `truncatedSample` — outer field 6 declaring 10 bytes with only 3 present,
inner field 3 declaring 5 bytes with only `a` present — the parser returns
the truncated token `"a"`, not absent. -/
theorem c4_parser_truncation_counterexample :
    parseProtobufForRefreshToken 16 truncatedSample = some (some "a") ∧
    (some (some "a") : Option (Option String)) ≠ some none := by
  constructor
  · decide
  · decide

/-- C4 (amended): for every well-formed buffer whose outer field 6 wraps an
inner field 3 holding the token bytes (short, single-byte-varint lengths),
the parser returns exactly those bytes decoded as a string — in particular
`"sample-refresh-token"` for the spec's synthetic buffer — and for a buffer
with no field 6 it returns absent.  A truncated buffer, however, may yield a
truncated token rather than absent (the slice clamps); no input makes the
parser throw. -/
theorem c4_parser_amended :
    (∀ token : List Nat, token.length < 126 →
       parseProtobufForRefreshToken 2 (tokenEnvelope token) =
         some (some (bufToAsciiStr token))) ∧
    parseProtobufForRefreshToken 2 (tokenEnvelope sampleTokenBytes) =
      some (some "sample-refresh-token") ∧
    parseProtobufForRefreshToken 4 noField6Sample = some none := by
  have hgen : ∀ token : List Nat, token.length < 126 →
      parseProtobufForRefreshToken 2 (tokenEnvelope token) =
        some (some (bufToAsciiStr token)) := by
    intro token h
    simp only [parseProtobufForRefreshToken, findField_outer_envelope token h,
      findField_inner_envelope token h]
  refine ⟨hgen, ?_, by decide⟩
  rw [hgen sampleTokenBytes (by decide)]
  decide

/-- C4 (witness): the amended round trip evaluated on the concrete
three-byte token `abc`. -/
theorem c4_parser_amended_witness :
    ([97, 98, 99] : List Nat).length < 126 ∧
    parseProtobufForRefreshToken 2 (tokenEnvelope [97, 98, 99]) =
      some (some (bufToAsciiStr [97, 98, 99])) :=
  ⟨by decide, c4_parser_amended.1 [97, 98, 99] (by decide)⟩

/-- C10 (counterexample): the claim says no input can cause an infinite
loop.  On `loopBuffer` the length varint decodes (with JS 32-bit overflow)
to `-6`, so after the 6-byte iteration `pos += length` returns the scan to
position 0: one loop iteration maps the state to itself, and the scan never
finishes (here: not within 100 iterations, and by the self-loop not within
any number of iterations). -/
theorem c10_scanner_loop_counterexample :
    scanStep loopBuffer 6 0 = .next 0 ∧
    findFieldFuel loopBuffer 6 100 0 = none ∧
    (readVarint loopBuffer 1).1 = -6 := by
  refine ⟨by decide, by decide, by decide⟩

/-- C10 (amended): a loop iteration that continues does strictly advance
the read position provided the 32-bit value decoded for the length field at
that step is nonnegative; the fixed-width wire types always advance.  Only a
corrupt buffer whose length varint decodes to a negative 32-bit value can
move the position backwards and loop forever. -/
theorem c10_scanner_progress_amended :
    ∀ (buffer : List Nat) (f pos pos' : Int),
      scanStep buffer f pos = .next pos' →
      0 ≤ (readVarint buffer (readVarint buffer pos).2).1 →
      pos < pos' := by
  intro buffer f pos pos' hstep hlen
  have hle2 := readVarint_snd_le buffer (readVarint buffer pos).2
  simp only [scanStep] at hstep
  split at hstep
  case isTrue hp =>
    have hlt : pos < (readVarint buffer pos).2 := readVarint_snd_lt hp
    split at hstep
    · cases hstep
    · split at hstep
      · split at hstep
        · cases hstep
        · cases hstep
          omega
      · split at hstep
        · cases hstep
          omega
        · split at hstep
          · cases hstep
            omega
          · split at hstep
            · cases hstep
              omega
            · cases hstep
  case isFalse hp => cases hstep

/-- C10 (witness): the progress property applied to a benign skip step:
field 1 with declared length 0 advances the position from 0 to 2. -/
theorem c10_scanner_progress_witness :
    (0 : Int) ≤ (readVarint skipProbeBuffer (readVarint skipProbeBuffer 0).2).1 ∧
    (0 : Int) < 2 :=
  ⟨by decide, c10_scanner_progress_amended skipProbeBuffer 6 0 2 (by decide) (by decide)⟩

/-- C5: `isTokenExpired(bufferMs)` is true exactly when no credential is
stored or `now + bufferMs >= expiresAt`; the default buffer is 300000 ms;
and the boundary case `bufferMs = 0`, `expiresAt = now` reports expired. -/
theorem c5_token_expiry :
    ∀ (stored : Option TokenData) (now bufferMs : Int), 0 ≤ bufferMs →
      (isTokenExpired stored now bufferMs = true ↔
        (stored = none ∨ ∃ t, stored = some t ∧ now + bufferMs ≥ t.expiresAt)) ∧
      DEFAULT_EXPIRY_BUFFER_MS = 300000 ∧
      (∀ t : TokenData, t.expiresAt = now → isTokenExpired (some t) now 0 = true) := by
  intro stored now bufferMs _
  refine ⟨?_, by decide, ?_⟩
  · cases stored with
    | none => simp [isTokenExpired]
    | some t =>
      constructor
      · intro h'
        exact Or.inr ⟨t, rfl, by simpa [isTokenExpired] using h'⟩
      · rintro (h' | ⟨t', ht', hge⟩)
        · cases h'
        · cases ht'
          simpa [isTokenExpired] using hge
  · intro t ht
    simp [isTokenExpired, ht]

/-- C5 (witness): a credential expiring exactly now, checked with buffer 0,
reports expired. -/
theorem c5_token_expiry_witness :
    (0 : Int) ≤ 0 ∧
    isTokenExpired (some ⟨"a", "r", 1000, "Bearer", "s", none⟩) 1000 0 = true :=
  ⟨by decide, (c5_token_expiry (some ⟨"a", "r", 1000, "Bearer", "s", none⟩) 1000 0
    (by decide)).2.2 ⟨"a", "r", 1000, "Bearer", "s", none⟩ rfl⟩

/-- C7 (counterexample): the claim says any login attempt while the state is
`Authenticating` or `Refreshing` is rejected, for both operations.  But
`login()` only checks `AUTHENTICATING`: called while `REFRESHING` it
proceeds — it moves the state to `AUTHENTICATING` and opens a callback
listener. -/
theorem c7_login_during_refresh_counterexample :
    loginEntry .REFRESHING =
      ⟨false, .AUTHENTICATING, 1⟩ := by
  decide

/-- C7 (amended): `login()` is rejected exactly when the state is
`Authenticating` (a no-op returning failure that opens no second listener),
while the imported-token login is rejected exactly when the state is
`Authenticating` or `Refreshing` (likewise a no-op returning failure). -/
theorem c7_login_guards_amended :
    ∀ s : AuthState,
      ((loginEntry s).rejected = true ↔ s = .AUTHENTICATING) ∧
      ((loginEntry s).rejected = true →
        (loginEntry s).stateAfter = s ∧ (loginEntry s).listenersOpened = 0) ∧
      ((loginWithRefreshTokenEntry s).rejected = true ↔
        (s = .AUTHENTICATING ∨ s = .REFRESHING)) ∧
      ((loginWithRefreshTokenEntry s).rejected = true →
        (loginWithRefreshTokenEntry s).stateAfter = s ∧
        (loginWithRefreshTokenEntry s).listenersOpened = 0) := by
  intro s
  cases s <;> simp [loginEntry, loginWithRefreshTokenEntry]

/-- C7 (witness): the amended guards applied at `REFRESHING`: the
imported-token login is rejected there and leaves the state alone. -/
theorem c7_login_guards_witness :
    (loginWithRefreshTokenEntry .REFRESHING).rejected = true ∧
    (loginWithRefreshTokenEntry .REFRESHING).stateAfter = .REFRESHING := by
  have h := c7_login_guards_amended .REFRESHING
  have hrej : (loginWithRefreshTokenEntry .REFRESHING).rejected = true :=
    h.2.2.1.mpr (Or.inr rfl)
  exact ⟨hrej, (h.2.2.2 hrej).1⟩

/-- C8 (counterexample): the claim says a missing-CSRF failure does not feed
the bounded-retry path.  But `doFetchQuota`'s catch-all treats it like any
other local-RPC error: from a fresh local-method engine the thrown
`Missing CSRF token` error schedules a 5000 ms delayed retry and consumes
one unit of the retry budget. -/
theorem c8_missing_csrf_retry_counterexample :
    (doFetchQuota freshEngine .AUTHENTICATED (.err missingCsrfError)).2.retriesScheduled =
      [5000] ∧
    (doFetchQuota freshEngine .AUTHENTICATED (.err missingCsrfError)).1.retryCount = 1 := by
  refine ⟨by decide, by decide⟩

/-- C8 (amended): with no (or an empty) CSRF token, `makeRequest` throws
`Missing CSRF token` while building the headers, before any network I/O;
but the polling engine's catch-all then treats that error like any other
local-RPC failure, scheduling a 5000 ms delayed retry while the retry budget
remains (it does feed the bounded-retry path). -/
theorem c8_missing_csrf_amended :
    (∀ csrf : Option String, csrfTokenTruthy csrf = false →
       makeRequestEntry csrf = .rejectedNoCsrf missingCsrfError) ∧
    (∀ (s : EngineState) (auth : AuthState),
       s.apiMethod = .GET_USER_STATUS → s.retryCount < MAX_RETRY_COUNT →
       (doFetchQuota s auth (.err missingCsrfError)).2.retriesScheduled = [RETRY_DELAY_MS] ∧
       (doFetchQuota s auth (.err missingCsrfError)).1.retryCount = s.retryCount + 1) := by
  constructor
  · intro csrf h
    simp [makeRequestEntry, h]
  · intro s auth hm hr
    constructor <;>
      simp [doFetchQuota, catchFetchError, hm, hr, CallLog.merge, emptyLog]

/-- C8 (witness): the amended behaviour evaluated with an absent token and
on the fresh local engine. -/
theorem c8_missing_csrf_amended_witness :
    csrfTokenTruthy none = false ∧
    makeRequestEntry none = .rejectedNoCsrf missingCsrfError ∧
    (doFetchQuota freshEngine .AUTHENTICATED (.err missingCsrfError)).2.retriesScheduled =
      [RETRY_DELAY_MS] :=
  ⟨by decide, c8_missing_csrf_amended.1 none (by decide),
   (c8_missing_csrf_amended.2 freshEngine .AUTHENTICATED rfl (by decide)).1⟩

/-- C9 (counterexample): the claim says a remaining time of 5 minutes 12
seconds formats as `"5m12s from now"`; the minutes branch interpolates a
space (`` `${minutes}m ${seconds % 60}s from now` ``), so the code returns
`"5m 12s from now"`. -/
theorem c9_minutes_format_counterexample :
    formatTimeUntilReset 312000 = "5m 12s from now" ∧
    formatTimeUntilReset 312000 ≠ "5m12s from now" := by
  refine ⟨by decide, by decide⟩

/-- C9 (amended): the formatter returns `"Expired"` for every remaining
time ≤ 0, `"2d3h from now"` at 2 days 3 hours (no space in the day branch),
and `"5m 12s from now"` at 5 minutes 12 seconds (the sub-hour branches put a
space between the two units). -/
theorem c9_format_amended :
    (∀ ms : Int, ms ≤ 0 → formatTimeUntilReset ms = "Expired") ∧
    formatTimeUntilReset 183600000 = "2d3h from now" ∧
    formatTimeUntilReset 312000 = "5m 12s from now" := by
  refine ⟨?_, by decide, by decide⟩
  intro ms h
  unfold formatTimeUntilReset
  rw [if_pos h]

/-- C9 (witness): the expired branch applied at −1000 ms. -/
theorem c9_format_amended_witness :
    (-1000 : Int) ≤ 0 ∧ formatTimeUntilReset (-1000) = "Expired" :=
  ⟨by decide, c9_format_amended.1 (-1000) (by decide)⟩

/-- C1: on the local-RPC method with every fetch failing, the scripted run
(start, then ticks interleaved with the retry timeouts) schedules exactly 3
delayed retries of 5000 ms each, performs 4 fetch attempts in total (the
initial fetch plus the 3 retries — the interleaved ticks are suppressed by
`isRetrying`), surfaces exactly one terminal error callback, and ends with
the repeating timer stopped; in general a pending retry suppresses any
polling run, a stopped engine with no pending retry performs no fetch under
any further timer events, below the budget each local failure schedules one
5000 ms retry, at the budget it stops the timer and surfaces the error, and
`retryFromError` is what performs a fetch again from the terminal state. -/
theorem c1_local_retry_budget :
    ((localFailStart.2.merge localFailRun.2).retriesScheduled = [5000, 5000, 5000] ∧
     (localFailStart.2.merge localFailRun.2).fetchAttempts = 4 ∧
     localFailRun.2.errorCallbackCount = 1 ∧
     localFailRun.1.intervalArmed = false ∧
     localFailRun.1.activeTimers = 0 ∧
     localFailRun.1.pendingRetries = []) ∧
    (∀ (s : EngineState) (auth : AuthState) (o : FetchOutcome),
       s.isRetrying = true → fetchQuota s auth o = (s, emptyLog)) ∧
    (∀ (auth : AuthState) (s : EngineState) (evs : List PollEvent),
       s.intervalArmed = false → s.pendingRetries = [] →
       (runEvents auth s evs).2.fetchAttempts = 0) ∧
    (∀ (s : EngineState) (e : ErrObj) (auth : AuthState),
       s.apiMethod = .GET_USER_STATUS → s.retryCount < MAX_RETRY_COUNT →
       (doFetchQuota s auth (.err e)).1.retryCount = s.retryCount + 1 ∧
       (doFetchQuota s auth (.err e)).2.retriesScheduled = [RETRY_DELAY_MS] ∧
       (doFetchQuota s auth (.err e)).2.errorCallbackCount = 0 ∧
       (doFetchQuota s auth (.err e)).1.intervalArmed = s.intervalArmed) ∧
    (∀ (s : EngineState) (e : ErrObj) (auth : AuthState),
       s.apiMethod = .GET_USER_STATUS → ¬ s.retryCount < MAX_RETRY_COUNT →
       (doFetchQuota s auth (.err e)).1.intervalArmed = false ∧
       (doFetchQuota s auth (.err e)).2.retriesScheduled = [] ∧
       (doFetchQuota s auth (.err e)).2.errorCallbackCount = 1) ∧
    (retryFromError localFailRun.1 .AUTHENTICATED (.err localBoom)).2.fetchAttempts = 1 := by
  refine ⟨by decide, fetchQuota_suppressed, ?_, ?_, ?_, by decide⟩
  · intro auth s evs h1 h2
    rw [runEvents_quiescent auth s evs h1 h2]
    rfl
  · intro s e auth hm hr
    refine ⟨?_, ?_, ?_, ?_⟩ <;>
      simp [doFetchQuota, catchFetchError, hm, hr, CallLog.merge, emptyLog]
  · intro s e auth hm hr
    by_cases harm : s.intervalArmed = true <;>
      (refine ⟨?_, ?_, ?_⟩ <;>
        simp [doFetchQuota, catchFetchError, stopPolling, hm, hr, harm,
          CallLog.merge, emptyLog])

/-- C1 (witness): the suppression conjunct applied at a retrying state, the
below-budget conjunct applied at the fresh engine, and the exhausted-budget
conjunct applied at a state with the budget used up. -/
theorem c1_local_retry_budget_witness :
    fetchQuota ⟨.GET_USER_STATUS, true, 1, false, 1, 1, true, false, [5000]⟩
      .AUTHENTICATED (.err localBoom) =
      (⟨.GET_USER_STATUS, true, 1, false, 1, 1, true, false, [5000]⟩, emptyLog) ∧
    (doFetchQuota freshEngine .AUTHENTICATED (.err localBoom)).1.retryCount = 0 + 1 ∧
    (doFetchQuota ⟨.GET_USER_STATUS, true, 1, false, 3, 3, false, false, []⟩
      .AUTHENTICATED (.err localBoom)).2.errorCallbackCount = 1 :=
  ⟨c1_local_retry_budget.2.1 _ .AUTHENTICATED (.err localBoom) rfl,
   (c1_local_retry_budget.2.2.2.1 freshEngine localBoom .AUTHENTICATED rfl (by decide)).1,
   (c1_local_retry_budget.2.2.2.2.1 ⟨.GET_USER_STATUS, true, 1, false, 3, 3, false, false, []⟩
     localBoom .AUTHENTICATED rfl (by decide)).2.2⟩

/-- C2: on the cloud method, a fetch that fails with an auth-classified
error stops the repeating timer, resets the retry counter to zero without
scheduling any delayed retry (no budget is consumed), surfaces no terminal
error, and invokes the auth-status callback with `needsLogin = true` and the
`isExpired` flag computed from the error message (`expired`/`invalid_grant`
distinguish an expired token from never-authenticated); a needs-reauth
`GoogleApiError` additionally fires `(true, true)` from the fetch's inner
handler before rethrowing. -/
theorem c2_cloud_auth_error_stops_polling :
    ∀ (s : EngineState) (e : ErrObj) (auth : AuthState),
      s.apiMethod = .GOOGLE_API → isAuthError e = true →
      (auth = .AUTHENTICATED ∨ auth = .ERROR) →
      (doFetchQuota s auth (.err e)).1.intervalArmed = false ∧
      (doFetchQuota s auth (.err e)).1.retryCount = 0 ∧
      (doFetchQuota s auth (.err e)).1.isRetrying = false ∧
      (doFetchQuota s auth (.err e)).1.pendingRetries = s.pendingRetries ∧
      (doFetchQuota s auth (.err e)).2.retriesScheduled = [] ∧
      (doFetchQuota s auth (.err e)).2.errorCallbackCount = 0 ∧
      (doFetchQuota s auth (.err e)).2.authStatusCalls =
        (if e.googleNeedsReauth then [(true, true), (true, isExpiredSignal e)]
         else [(true, isExpiredSignal e)]) ∧
      (isExpiredSignal notAuthSample = false ∧ isExpiredSignal authFailSample = true) := by
  intro s e auth hm hauth ha
  rcases ha with rfl | rfl <;>
    by_cases hg : e.googleNeedsReauth = true <;>
    by_cases harm : s.intervalArmed = true <;>
    (refine ⟨?_, ?_, ?_, ?_, ?_, ?_, ?_, by decide, by decide⟩ <;>
      simp [doFetchQuota, catchFetchError, stopPolling, hm, hauth, hg, harm,
        CallLog.merge, emptyLog])

/-- C2 (witness): the cloud auth-error behaviour at a concrete mid-run state
with the `invalid_grant` failure. -/
theorem c2_cloud_auth_error_witness :
    (doFetchQuota staleProbeState .AUTHENTICATED (.err authFailSample)).1.intervalArmed =
      false ∧
    (doFetchQuota staleProbeState .AUTHENTICATED (.err authFailSample)).2.authStatusCalls =
      [(true, true)] := by
  have h := c2_cloud_auth_error_stops_polling staleProbeState authFailSample .AUTHENTICATED
    rfl (by decide) (Or.inl rfl)
  refine ⟨h.1, ?_⟩
  rw [h.2.2.2.2.2.2.1]
  decide

/-- C3 (counterexample): the claim says that apart from the timer staying
armed, the stale flag and the retry counter, all other polling state is left
unchanged; on `staleProbeState` (no errors counted, first attempt pending,
two retries used) the network failure increments `consecutiveErrors` from 0
to 1, clears `isFirstAttempt`, and resets `retryCount` from 2 to 0. -/
theorem c3_cloud_network_frame_counterexample :
    staleProbeState.consecutiveErrors = 0 ∧
    (doFetchQuota staleProbeState .AUTHENTICATED (.err netTimeoutSample)).1.consecutiveErrors
      = 1 ∧
    staleProbeState.isFirstAttempt = true ∧
    (doFetchQuota staleProbeState .AUTHENTICATED (.err netTimeoutSample)).1.isFirstAttempt
      = false ∧
    staleProbeState.retryCount = 2 ∧
    (doFetchQuota staleProbeState .AUTHENTICATED (.err netTimeoutSample)).1.retryCount
      = 0 := by
  refine ⟨by decide, by decide, by decide, by decide, by decide, by decide⟩

/-- C3 (amended): on the cloud method, a network/timeout-classified (and not
auth-classified) fetch failure leaves the repeating timer armed, fires the
stale callback with `true`, schedules no retry and surfaces no terminal
error, and does not increment the retry counter (it resets it to 0); it does
increment the consecutive-error counter and clear `isFirstAttempt`, and it
leaves the timer bookkeeping, `isRetrying`, the transition lock, the pending
retries and the api method unchanged. -/
theorem c3_cloud_network_stale_amended :
    ∀ (s : EngineState) (e : ErrObj) (auth : AuthState),
      s.apiMethod = .GOOGLE_API → isAuthError e = false →
      isNetworkOrTimeoutError e = true →
      (auth = .AUTHENTICATED ∨ auth = .ERROR) →
      (doFetchQuota s auth (.err e)).1.intervalArmed = s.intervalArmed ∧
      (doFetchQuota s auth (.err e)).1.activeTimers = s.activeTimers ∧
      (doFetchQuota s auth (.err e)).2.staleCalls = [true] ∧
      (doFetchQuota s auth (.err e)).1.retryCount = 0 ∧
      (doFetchQuota s auth (.err e)).2.retriesScheduled = [] ∧
      (doFetchQuota s auth (.err e)).2.errorCallbackCount = 0 ∧
      (doFetchQuota s auth (.err e)).1.consecutiveErrors = s.consecutiveErrors + 1 ∧
      (doFetchQuota s auth (.err e)).1.isFirstAttempt = false ∧
      (doFetchQuota s auth (.err e)).1.isRetrying = s.isRetrying ∧
      (doFetchQuota s auth (.err e)).1.isPollingTransition = s.isPollingTransition ∧
      (doFetchQuota s auth (.err e)).1.pendingRetries = s.pendingRetries ∧
      (doFetchQuota s auth (.err e)).1.apiMethod = s.apiMethod := by
  intro s e auth hm hauth hnet ha
  rcases ha with rfl | rfl <;>
    by_cases hg : e.googleNeedsReauth = true <;>
    · have hg2 : isAuthError e = false := hauth
      refine ⟨?_, ?_, ?_, ?_, ?_, ?_, ?_, ?_, ?_, ?_, ?_, ?_⟩ <;>
        simp [doFetchQuota, catchFetchError, hm, hg2, hnet, hg, CallLog.merge, emptyLog]

/-- C3 (witness): the amended frame facts at the concrete probe state and
connection-refused failure. -/
theorem c3_cloud_network_stale_witness :
    (doFetchQuota staleProbeState .AUTHENTICATED (.err netTimeoutSample)).1.intervalArmed =
      staleProbeState.intervalArmed ∧
    (doFetchQuota staleProbeState .AUTHENTICATED (.err netTimeoutSample)).2.staleCalls =
      [true] :=
  ⟨(c3_cloud_network_stale_amended staleProbeState netTimeoutSample .AUTHENTICATED rfl
      (by decide) (by decide) (Or.inl rfl)).1,
   (c3_cloud_network_stale_amended staleProbeState netTimeoutSample .AUTHENTICATED rfl
      (by decide) (by decide) (Or.inl rfl)).2.2.1⟩

/-- C6: when the cloud auth pre-check does not trigger and the transition
lock is free, a first `start` call acquires the lock and stops any existing
timer; a second `start` call arriving while the first is suspended at its
initial fetch sees the lock held and returns as a pure no-op; when the first
call resumes it installs the repeating timer, ending with exactly one active
timer in the runtime and the lock released. -/
theorem c6_start_transition_lock :
    ∀ (s : EngineState) (auth : AuthState) (o1 o2 : FetchOutcome),
      ¬(s.apiMethod = .GOOGLE_API ∧ (auth = .NOT_AUTHENTICATED ∨ auth = .TOKEN_EXPIRED)) →
      s.isPollingTransition = false →
      s.activeTimers = (if s.intervalArmed then 1 else 0) →
      (startPollingEnter s auth).2.2 = true ∧
      startPolling (startPollingEnter s auth).1 auth o2 =
        ((startPollingEnter s auth).1, emptyLog) ∧
      (startPollingFinish (startPollingEnter s auth).1 auth o1).1.activeTimers = 1 ∧
      (startPollingFinish (startPollingEnter s auth).1 auth o1).1.intervalArmed = true ∧
      (startPollingFinish (startPollingEnter s auth).1 auth o1).1.isPollingTransition =
        false := by
  intro s auth o1 o2 hpre hlock htimers
  have henter : startPollingEnter s auth =
      (stopPolling { s with isPollingTransition := true }, emptyLog, true) := by
    simp [startPollingEnter, hpre, hlock]
  have hs1arm : (stopPolling { s with isPollingTransition := true }).intervalArmed = false ∧
      (stopPolling { s with isPollingTransition := true }).activeTimers = 0 ∧
      (stopPolling { s with isPollingTransition := true }).isPollingTransition = true ∧
      (stopPolling { s with isPollingTransition := true }).apiMethod = s.apiMethod := by
    by_cases harm : s.intervalArmed = true <;>
      simp_all [stopPolling]
  refine ⟨by rw [henter], ?_, ?_, ?_, ?_⟩
  · rw [henter]
    unfold startPolling
    have : startPollingEnter (stopPolling { s with isPollingTransition := true }) auth =
        (stopPolling { s with isPollingTransition := true }, emptyLog, false) := by
      unfold startPollingEnter
      rw [if_neg (by rw [hs1arm.2.2.2]; exact hpre), if_pos hs1arm.2.2.1]
    rw [this]
  all_goals
    rw [henter]
    unfold startPollingFinish
    have hf := fetchQuota_unarmed (stopPolling { s with isPollingTransition := true })
      auth o1 hs1arm.1
    simp [armInterval, hf.2.1, hs1arm.2.1]

/-- C6 (witness): the lock behaviour from a concrete idle state. -/
theorem c6_start_transition_lock_witness :
    (startPollingEnter freshEngine .AUTHENTICATED).2.2 = true ∧
    (startPollingFinish (startPollingEnter freshEngine .AUTHENTICATED).1 .AUTHENTICATED
      (.err localBoom)).1.activeTimers = 1 := by
  have h := c6_start_transition_lock freshEngine .AUTHENTICATED (.err localBoom)
    (.err localBoom) (by decide) rfl (by decide)
  exact ⟨h.1, h.2.2.1⟩

end AQW
